import Mathlib

/-!
# QoS analysis of `game-ddos-sim.cc`

A shallow embedding of the post-simulation analysis in `main`
(`src/game-ddos-sim.cc`, lines 155-258): the classification of every
observed flow as legitimate or not, the four per-flow derived metrics,
the accumulation over legitimate flows and the final aggregate report.

Conventions of the embedding.

* `double` arithmetic is exact rational arithmetic (`ℚ`).
* `uint32_t` / `uint64_t` counters read from a flow record are natural
  numbers; the two places where the program itself does 32-bit unsigned
  arithmetic (`legitimateFlows++` and `rxPackets - 1`) wrap modulo `2 ^ 32`.
* `std::map<FlowId, FlowStats>` is the list of its entries in key order and
  `classifier->FindFlow` is a function from flow ids to five-tuples.
* Console output is a list of structured records holding the printed numbers.
-/

namespace GameDdosSim

/-! ## Data model -/

/-- An IPv4 address (a 32-bit value; the analysis only compares addresses). -/
abbrev Ipv4Address := Nat

/-- The key of the flow-statistics map. -/
abbrev FlowId := Nat

/-- Modelled from the spec: `Ipv4FlowClassifier::FiveTuple`, the value returned by
`classifier->FindFlow`, is declared by the ns-3 library, outside `src/`. It is the
flow key of the spec (source endpoint, destination endpoint, protocol); the analysis
reads only the two addresses. -/
structure FiveTuple where
  sourceAddress : Ipv4Address
  destinationAddress : Ipv4Address
  protocol : Nat
  sourcePort : Nat
  destinationPort : Nat
  deriving DecidableEq, Repr

/-- Modelled from the spec: `ns3::Time` is declared by the ns-3 library, outside
`src/`. The spec speaks of timestamps and cumulative delays without fixing a
representation; here a time value is a signed count of clock ticks. -/
structure Time where
  ticks : Int
  deriving DecidableEq, Repr

/-- Modelled from the spec: the number of clock ticks per second of `ns3::Time`,
which the spec leaves open; the value is the nanosecond resolution that ns-3 uses
unless told otherwise. The general results below use only that it is positive. -/
def ticksPerSecond : Nat := 1000000000

/-- Modelled from the spec: `operator-` of `ns3::Time` (line 200), the difference
of two time values. -/
def Time.sub (a b : Time) : Time := ⟨a.ticks - b.ticks⟩

/-- Modelled from the spec: `Time::GetSeconds` (lines 200, 218, 224), the time value
in seconds as an exact rational. -/
def Time.GetSeconds (t : Time) : ℚ := (t.ticks : ℚ) / (ticksPerSecond : ℚ)

/-- Modelled from the spec: `FlowMonitor::FlowStats` is declared by the ns-3 library,
outside `src/`. These are the fields that the analysis reads, the running counters of
a flow in the spec: first and last receive timestamp, cumulative delay and jitter,
received bytes, and the packets sent, received and lost. -/
structure FlowStats where
  timeFirstRxPacket : Time
  timeLastRxPacket : Time
  delaySum : Time
  jitterSum : Time
  rxBytes : Nat
  txPackets : Nat
  rxPackets : Nat
  lostPackets : Nat
  deriving DecidableEq, Repr

/-! ## Classification (lines 180-195) -/

/-- The inner loop over `clientAddresses` (lines 182-190): the flag becomes `true`
at the first client address for which source and destination both match. -/
def isLegitimate (t : FiveTuple) (clientAddresses : List Ipv4Address)
    (serverAddress : Ipv4Address) : Bool :=
  match clientAddresses with
  | [] => false
  | clientAddr :: rest =>
    if t.sourceAddress = clientAddr ∧ t.destinationAddress = serverAddress then true
    else isLegitimate t rest serverAddress

/-! ## Per-flow derived metrics (lines 199-225) -/

/-- Lines 199-205: measured receive span in seconds, replaced by `simTime - 2.0`
when it is not positive. -/
def flowDuration (fs : FlowStats) (simTime : ℚ) : ℚ :=
  let measured := (fs.timeLastRxPacket.sub fs.timeFirstRxPacket).GetSeconds
  if measured ≤ 0 then simTime - 2 else measured

/-- Line 207: `(rxBytes * 8.0) / (flowDuration * 1000000.0)`. -/
def throughput (fs : FlowStats) (simTime : ℚ) : ℚ :=
  ((fs.rxBytes : ℚ) * 8) / (flowDuration fs simTime * 1000000)

/-- Lines 209-213. -/
def packetLoss (fs : FlowStats) : ℚ :=
  if fs.txPackets > 0 then (fs.lostPackets : ℚ) / (fs.txPackets : ℚ) else 0

/-- Lines 215-219. -/
def avgDelay (fs : FlowStats) : ℚ :=
  if fs.rxPackets > 0 then fs.delaySum.GetSeconds / (fs.rxPackets : ℚ) else 0

/-- Subtraction of two `uint32_t` values: the result wraps modulo `2 ^ 32`. -/
def usub32 (a b : Nat) : Nat := (a % 2 ^ 32 + 2 ^ 32 - b % 2 ^ 32) % 2 ^ 32

/-- Lines 221-225; `rxPackets - 1` is a 32-bit unsigned subtraction. -/
def avgJitter (fs : FlowStats) : ℚ :=
  if fs.rxPackets > 1 then fs.jitterSum.GetSeconds / ((usub32 fs.rxPackets 1 : Nat) : ℚ) else 0

/-! ## The loop over the flow map (lines 172-241) -/

/-- The numbers printed for one legitimate flow (lines 227-235). -/
structure FlowLine where
  flowId : FlowId
  sourceAddress : Ipv4Address
  destinationAddress : Ipv4Address
  throughputMbps : ℚ
  avgDelayMs : ℚ
  avgJitterMs : ℚ
  packetLossPct : ℚ
  txPackets : Nat
  rxPackets : Nat
  lostPackets : Nat
  deriving DecidableEq, Repr

/-- The local variables of lines 172-176 together with the lines printed so far. -/
structure Totals where
  legitimateFlows : Nat
  totalThroughput : ℚ
  totalPacketLoss : ℚ
  totalDelay : ℚ
  totalJitter : ℚ
  printed : List FlowLine
  deriving DecidableEq, Repr

/-- Lines 172-176. -/
def Totals.init : Totals :=
  { legitimateFlows := 0, totalThroughput := 0, totalPacketLoss := 0,
    totalDelay := 0, totalJitter := 0, printed := [] }

/-- Lines 227-235 for one flow. -/
def flowLine (t : FiveTuple) (simTime : ℚ) (flow : FlowId × FlowStats) : FlowLine :=
  { flowId := flow.1
    sourceAddress := t.sourceAddress
    destinationAddress := t.destinationAddress
    throughputMbps := throughput flow.2 simTime
    avgDelayMs := avgDelay flow.2 * 1000
    avgJitterMs := avgJitter flow.2 * 1000
    packetLossPct := packetLoss flow.2 * 100
    txPackets := flow.2.txPackets
    rxPackets := flow.2.rxPackets
    lostPackets := flow.2.lostPackets }

/-- One iteration of the loop of lines 178-241. -/
def loopBody (findFlow : FlowId → FiveTuple) (clientAddresses : List Ipv4Address)
    (serverAddress : Ipv4Address) (simTime : ℚ) (s : Totals)
    (flow : FlowId × FlowStats) : Totals :=
  let t := findFlow flow.1
  if isLegitimate t clientAddresses serverAddress = false then s
  else
    { legitimateFlows := (s.legitimateFlows + 1) % 2 ^ 32
      totalThroughput := s.totalThroughput + throughput flow.2 simTime
      totalPacketLoss := s.totalPacketLoss + packetLoss flow.2
      totalDelay := s.totalDelay + avgDelay flow.2
      totalJitter := s.totalJitter + avgJitter flow.2
      printed := s.printed ++ [flowLine t simTime flow] }

/-- The whole loop of lines 178-241, started from the state of lines 172-176. -/
def flowLoop (findFlow : FlowId → FiveTuple) (clientAddresses : List Ipv4Address)
    (serverAddress : Ipv4Address) (simTime : ℚ)
    (stats : List (FlowId × FlowStats)) : Totals :=
  stats.foldl (loopBody findFlow clientAddresses serverAddress simTime) Totals.init

/-! ## Final report (lines 165-170 and 243-258) -/

/-- What the program prints after the per-flow lines. -/
inductive Report where
  /-- Lines 165-170: "ERROR: No flows detected! Check network configuration." -/
  | noFlowsDetected
  /-- Lines 252-255: "ERROR: No legitimate client flows found!" -/
  | noLegitimateFlows
  /-- Lines 244-251: the client count and the four printed averages. -/
  | aggregate (clients : Nat) (avgThroughputMbps avgDelayMs avgJitterMs avgPacketLossPct : ℚ)
  deriving DecidableEq, Repr

/-- Everything observable of the analysis: per-flow lines, final report, exit status. -/
structure Outcome where
  lines : List FlowLine
  report : Report
  exitCode : Nat
  deriving DecidableEq, Repr

/-- Lines 165-258 of `main`. -/
def qosAnalysis (findFlow : FlowId → FiveTuple) (clientAddresses : List Ipv4Address)
    (serverAddress : Ipv4Address) (simTime : ℚ)
    (stats : List (FlowId × FlowStats)) : Outcome :=
  if stats.isEmpty then
    { lines := [], report := Report.noFlowsDetected, exitCode := 1 }
  else
    let s := flowLoop findFlow clientAddresses serverAddress simTime stats
    if s.legitimateFlows > 0 then
      { lines := s.printed
        report := Report.aggregate s.legitimateFlows
          (s.totalThroughput / (s.legitimateFlows : ℚ))
          (s.totalDelay / (s.legitimateFlows : ℚ) * 1000)
          (s.totalJitter / (s.legitimateFlows : ℚ) * 1000)
          (s.totalPacketLoss / (s.legitimateFlows : ℚ) * 100)
        exitCode := 0 }
    else
      { lines := s.printed, report := Report.noLegitimateFlows, exitCode := 0 }

/-! ## Auxiliary notions used to state the properties -/

/-- The entries of the flow map that the classification accepts, in map order. -/
def legitimateEntries (findFlow : FlowId → FiveTuple) (clientAddresses : List Ipv4Address)
    (serverAddress : Ipv4Address) (stats : List (FlowId × FlowStats)) :
    List (FlowId × FlowStats) :=
  stats.filter (fun flow => isLegitimate (findFlow flow.1) clientAddresses serverAddress)

/-- Arithmetic mean of a list of rationals. -/
def mean (xs : List ℚ) : ℚ := xs.sum / (xs.length : ℚ)

/-- The four printed averages of a report, if it has any. -/
def Report.averages : Report → Option (ℚ × ℚ × ℚ × ℚ)
  | Report.aggregate _ a b c d => some (a, b, c, d)
  | _ => none

/-- The aggregation as the specification words it: the mean of each metric over the
legitimate flows that have at least one sent packet. -/
def specAverages (findFlow : FlowId → FiveTuple) (clientAddresses : List Ipv4Address)
    (serverAddress : Ipv4Address) (simTime : ℚ)
    (stats : List (FlowId × FlowStats)) : ℚ × ℚ × ℚ × ℚ :=
  let sent := (legitimateEntries findFlow clientAddresses serverAddress stats).filter
    (fun flow => decide (flow.2.txPackets > 0))
  (mean (sent.map (fun flow => throughput flow.2 simTime)),
   mean (sent.map (fun flow => avgDelay flow.2 * 1000)),
   mean (sent.map (fun flow => avgJitter flow.2 * 1000)),
   mean (sent.map (fun flow => packetLoss flow.2 * 100)))

/-- The aggregation as the program performs it: the mean of each metric over all
legitimate flows. -/
def codeAverages (findFlow : FlowId → FiveTuple) (clientAddresses : List Ipv4Address)
    (serverAddress : Ipv4Address) (simTime : ℚ)
    (stats : List (FlowId × FlowStats)) : ℚ × ℚ × ℚ × ℚ :=
  let legit := legitimateEntries findFlow clientAddresses serverAddress stats
  (mean (legit.map (fun flow => throughput flow.2 simTime)),
   mean (legit.map (fun flow => avgDelay flow.2 * 1000)),
   mean (legit.map (fun flow => avgJitter flow.2 * 1000)),
   mean (legit.map (fun flow => packetLoss flow.2 * 100)))

/-- The observed duration as the specification words it: last arrival minus first
arrival when that difference is positive, otherwise the client send window
`simTime - 2`. -/
def specDuration (fs : FlowStats) (simTime : ℚ) : ℚ :=
  if 0 < fs.timeLastRxPacket.GetSeconds - fs.timeFirstRxPacket.GetSeconds then
    fs.timeLastRxPacket.GetSeconds - fs.timeFirstRxPacket.GetSeconds
  else simTime - 2

/-- The throughput as the specification words it, in bits per second: received bytes
times eight over the observed duration. -/
def specThroughputBps (fs : FlowStats) (simTime : ℚ) : ℚ :=
  ((fs.rxBytes : ℚ) * 8) / specDuration fs simTime

/-! ## Concrete inputs used in the examples -/

/-- A classifier sending flow id `n` to a flow from address `n` to address `100`. -/
def sampleFindFlow : FlowId → FiveTuple :=
  fun n => { sourceAddress := n, destinationAddress := 100, protocol := 17,
             sourcePort := 49153, destinationPort := 4000 }

/-- A flow record with `tx` sent, `rx` received and `lost` lost packets, `bytes`
received bytes, first and last arrival at ticks `t0` and `t1`, and cumulative delay and
jitter of `d` and `j` ticks. -/
def sampleStats (tx rx lost bytes : Nat) (t0 t1 d j : Int) : FlowStats :=
  { timeFirstRxPacket := ⟨t0⟩, timeLastRxPacket := ⟨t1⟩, delaySum := ⟨d⟩, jitterSum := ⟨j⟩,
    rxBytes := bytes, txPackets := tx, rxPackets := rx, lostPackets := lost }

/-- A flow on which nothing was ever sent or received. -/
def idleStats : FlowStats := sampleStats 0 0 0 0 0 0 0 0

/-- A flow with ten packets sent, five lost, five received over eight seconds. -/
def busyStats : FlowStats :=
  sampleStats 10 5 5 1000000 2000000000 10000000000 60000000 8000000

/-! ## Lemmas about the classification and the loop -/

theorem isLegitimate_iff (t : FiveTuple) (clientAddresses : List Ipv4Address)
    (serverAddress : Ipv4Address) :
    isLegitimate t clientAddresses serverAddress = true ↔
      (∃ c ∈ clientAddresses, t.sourceAddress = c) ∧ t.destinationAddress = serverAddress := by
  induction clientAddresses with
  | nil => simp [isLegitimate]
  | cons a rest ih =>
    by_cases h : t.sourceAddress = a ∧ t.destinationAddress = serverAddress
    · simp only [isLegitimate, if_pos h, true_iff]
      exact ⟨⟨a, List.mem_cons_self a rest, h.1⟩, h.2⟩
    · simp only [isLegitimate, if_neg h, ih]
      constructor
      · rintro ⟨⟨c, hc, hs⟩, hd⟩
        exact ⟨⟨c, List.mem_cons_of_mem a hc, hs⟩, hd⟩
      · rintro ⟨⟨c, hc, hs⟩, hd⟩
        rcases List.mem_cons.mp hc with hca | hcr
        · exact absurd ⟨hs.trans hca, hd⟩ h
        · exact ⟨⟨c, hcr, hs⟩, hd⟩

theorem loopBody_of_not_legitimate (findFlow : FlowId → FiveTuple)
    (clientAddresses : List Ipv4Address) (serverAddress : Ipv4Address) (simTime : ℚ)
    (s : Totals) (flow : FlowId × FlowStats)
    (h : isLegitimate (findFlow flow.1) clientAddresses serverAddress = false) :
    loopBody findFlow clientAddresses serverAddress simTime s flow = s := by
  simp [loopBody, h]

theorem loopBody_of_legitimate (findFlow : FlowId → FiveTuple)
    (clientAddresses : List Ipv4Address) (serverAddress : Ipv4Address) (simTime : ℚ)
    (s : Totals) (flow : FlowId × FlowStats)
    (h : isLegitimate (findFlow flow.1) clientAddresses serverAddress = true) :
    loopBody findFlow clientAddresses serverAddress simTime s flow =
      { legitimateFlows := (s.legitimateFlows + 1) % 2 ^ 32
        totalThroughput := s.totalThroughput + throughput flow.2 simTime
        totalPacketLoss := s.totalPacketLoss + packetLoss flow.2
        totalDelay := s.totalDelay + avgDelay flow.2
        totalJitter := s.totalJitter + avgJitter flow.2
        printed := s.printed ++ [flowLine (findFlow flow.1) simTime flow] } := by
  simp [loopBody, h]

theorem legitimateEntries_cons_of_legitimate (findFlow : FlowId → FiveTuple)
    (clientAddresses : List Ipv4Address) (serverAddress : Ipv4Address)
    (flow : FlowId × FlowStats) (rest : List (FlowId × FlowStats))
    (h : isLegitimate (findFlow flow.1) clientAddresses serverAddress = true) :
    legitimateEntries findFlow clientAddresses serverAddress (flow :: rest) =
      flow :: legitimateEntries findFlow clientAddresses serverAddress rest := by
  simp [legitimateEntries, List.filter_cons, h]

theorem legitimateEntries_cons_of_not_legitimate (findFlow : FlowId → FiveTuple)
    (clientAddresses : List Ipv4Address) (serverAddress : Ipv4Address)
    (flow : FlowId × FlowStats) (rest : List (FlowId × FlowStats))
    (h : isLegitimate (findFlow flow.1) clientAddresses serverAddress = false) :
    legitimateEntries findFlow clientAddresses serverAddress (flow :: rest) =
      legitimateEntries findFlow clientAddresses serverAddress rest := by
  simp [legitimateEntries, List.filter_cons, h]

/-- The state after the loop, from any starting state: the lines of the legitimate
entries are appended in order, each total grows by the sum of its metric over the
legitimate entries, and the counter grows by their number modulo `2 ^ 32`. -/
theorem foldl_loopBody (findFlow : FlowId → FiveTuple)
    (clientAddresses : List Ipv4Address) (serverAddress : Ipv4Address) (simTime : ℚ)
    (stats : List (FlowId × FlowStats)) (s : Totals) :
    let legit := legitimateEntries findFlow clientAddresses serverAddress stats
    let r := stats.foldl (loopBody findFlow clientAddresses serverAddress simTime) s
    r.printed = s.printed ++ legit.map (fun flow => flowLine (findFlow flow.1) simTime flow) ∧
    r.totalThroughput = s.totalThroughput + (legit.map (fun flow => throughput flow.2 simTime)).sum ∧
    r.totalPacketLoss = s.totalPacketLoss + (legit.map (fun flow => packetLoss flow.2)).sum ∧
    r.totalDelay = s.totalDelay + (legit.map (fun flow => avgDelay flow.2)).sum ∧
    r.totalJitter = s.totalJitter + (legit.map (fun flow => avgJitter flow.2)).sum ∧
    r.legitimateFlows % 2 ^ 32 = (s.legitimateFlows + legit.length) % 2 ^ 32 ∧
    (s.legitimateFlows < 2 ^ 32 → r.legitimateFlows < 2 ^ 32) := by
  induction stats generalizing s with
  | nil => simp [legitimateEntries]
  | cons flow rest ih =>
    cases h : isLegitimate (findFlow flow.1) clientAddresses serverAddress with
    | false =>
      have hb := loopBody_of_not_legitimate findFlow clientAddresses serverAddress simTime s flow h
      have he := legitimateEntries_cons_of_not_legitimate findFlow clientAddresses
        serverAddress flow rest h
      simp only [List.foldl_cons, hb, he]
      exact ih s
    | true =>
      have hb := loopBody_of_legitimate findFlow clientAddresses serverAddress simTime s flow h
      have he := legitimateEntries_cons_of_legitimate findFlow clientAddresses
        serverAddress flow rest h
      simp only [List.foldl_cons, hb, he]
      obtain ⟨h1, h2, h3, h4, h5, h6, h7⟩ := ih
        { legitimateFlows := (s.legitimateFlows + 1) % 2 ^ 32
          totalThroughput := s.totalThroughput + throughput flow.2 simTime
          totalPacketLoss := s.totalPacketLoss + packetLoss flow.2
          totalDelay := s.totalDelay + avgDelay flow.2
          totalJitter := s.totalJitter + avgJitter flow.2
          printed := s.printed ++ [flowLine (findFlow flow.1) simTime flow] }
      refine ⟨?_, ?_, ?_, ?_, ?_, ?_, ?_⟩
      · rw [h1]; simp
      · rw [h2]; simp [add_assoc]
      · rw [h3]; simp [add_assoc]
      · rw [h4]; simp [add_assoc]
      · rw [h5]; simp [add_assoc]
      · rw [h6]; simp only [List.length_cons]; omega
      · intro _; exact h7 (Nat.mod_lt _ (by norm_num))

/-- The state after the loop of lines 178-241 when started from lines 172-176. -/
theorem flowLoop_eq (findFlow : FlowId → FiveTuple)
    (clientAddresses : List Ipv4Address) (serverAddress : Ipv4Address) (simTime : ℚ)
    (stats : List (FlowId × FlowStats)) :
    let legit := legitimateEntries findFlow clientAddresses serverAddress stats
    let r := flowLoop findFlow clientAddresses serverAddress simTime stats
    r.printed = legit.map (fun flow => flowLine (findFlow flow.1) simTime flow) ∧
    r.totalThroughput = (legit.map (fun flow => throughput flow.2 simTime)).sum ∧
    r.totalPacketLoss = (legit.map (fun flow => packetLoss flow.2)).sum ∧
    r.totalDelay = (legit.map (fun flow => avgDelay flow.2)).sum ∧
    r.totalJitter = (legit.map (fun flow => avgJitter flow.2)).sum ∧
    r.legitimateFlows = legit.length % 2 ^ 32 := by
  obtain ⟨h1, h2, h3, h4, h5, h6, h7⟩ :=
    foldl_loopBody findFlow clientAddresses serverAddress simTime stats Totals.init
  have hlt := h7 (by simp [Totals.init])
  simp only [Totals.init, List.nil_append, zero_add] at h1 h2 h3 h4 h5 h6
  refine ⟨h1, h2, h3, h4, h5, ?_⟩
  rw [← h6]
  exact (Nat.mod_eq_of_lt hlt).symm

theorem mem_legitimateEntries (findFlow : FlowId → FiveTuple)
    (clientAddresses : List Ipv4Address) (serverAddress : Ipv4Address)
    (stats : List (FlowId × FlowStats)) (flow : FlowId × FlowStats) :
    flow ∈ legitimateEntries findFlow clientAddresses serverAddress stats ↔
      flow ∈ stats ∧ isLegitimate (findFlow flow.1) clientAddresses serverAddress = true := by
  simp [legitimateEntries, List.mem_filter]

theorem legitimateEntries_length_pos_iff (findFlow : FlowId → FiveTuple)
    (clientAddresses : List Ipv4Address) (serverAddress : Ipv4Address)
    (stats : List (FlowId × FlowStats)) :
    0 < (legitimateEntries findFlow clientAddresses serverAddress stats).length ↔
      ∃ flow ∈ stats, isLegitimate (findFlow flow.1) clientAddresses serverAddress = true := by
  rw [List.length_pos_iff_exists_mem]
  constructor
  · rintro ⟨flow, hf⟩
    exact ⟨flow, (mem_legitimateEntries _ _ _ _ _).mp hf⟩
  · rintro ⟨flow, hf⟩
    exact ⟨flow, (mem_legitimateEntries _ _ _ _ _).mpr hf⟩

theorem ticksPerSecond_pos : (0 : ℚ) < (ticksPerSecond : ℚ) := by
  norm_num [ticksPerSecond]

theorem usub32_one (n : Nat) (h1 : 1 < n) (h2 : n < 2 ^ 32) : usub32 n 1 = n - 1 := by
  unfold usub32
  have e1 : n % 2 ^ 32 = n := Nat.mod_eq_of_lt h2
  have e2 : 1 % 2 ^ 32 = 1 := by norm_num
  rw [e1, e2]
  omega

theorem flowDuration_eq_specDuration (fs : FlowStats) (simTime : ℚ) :
    flowDuration fs simTime = specDuration fs simTime := by
  have hsub : (fs.timeLastRxPacket.sub fs.timeFirstRxPacket).GetSeconds =
      fs.timeLastRxPacket.GetSeconds - fs.timeFirstRxPacket.GetSeconds := by
    simp only [Time.sub, Time.GetSeconds]
    push_cast
    ring
  unfold flowDuration specDuration
  simp only [hsub]
  by_cases h : fs.timeLastRxPacket.GetSeconds - fs.timeFirstRxPacket.GetSeconds ≤ 0
  · rw [if_pos h, if_neg (not_lt.mpr h)]
  · rw [if_neg h, if_pos (not_le.mp h)]

theorem flowDuration_pos (fs : FlowStats) (simTime : ℚ) (hsim : 2 < simTime) :
    0 < flowDuration fs simTime := by
  unfold flowDuration
  simp only
  split
  · linarith
  · next h => exact not_le.mp h

theorem qosAnalysis_lines (findFlow : FlowId → FiveTuple)
    (clientAddresses : List Ipv4Address) (serverAddress : Ipv4Address) (simTime : ℚ)
    (stats : List (FlowId × FlowStats)) :
    (qosAnalysis findFlow clientAddresses serverAddress simTime stats).lines =
      (legitimateEntries findFlow clientAddresses serverAddress stats).map
        (fun f => flowLine (findFlow f.1) simTime f) := by
  have hp := (flowLoop_eq findFlow clientAddresses serverAddress simTime stats).1
  unfold qosAnalysis
  cases stats with
  | nil => simp [legitimateEntries]
  | cons a rest =>
    simp only [List.isEmpty_cons, Bool.false_eq_true, if_false]
    split
    · exact hp
    · exact hp

theorem qosAnalysis_nil (findFlow : FlowId → FiveTuple)
    (clientAddresses : List Ipv4Address) (serverAddress : Ipv4Address) (simTime : ℚ) :
    qosAnalysis findFlow clientAddresses serverAddress simTime [] =
      { lines := [], report := Report.noFlowsDetected, exitCode := 1 } := by
  simp [qosAnalysis]

theorem qosAnalysis_of_count_zero (findFlow : FlowId → FiveTuple)
    (clientAddresses : List Ipv4Address) (serverAddress : Ipv4Address) (simTime : ℚ)
    (stats : List (FlowId × FlowStats)) (hne : stats ≠ [])
    (h0 : (flowLoop findFlow clientAddresses serverAddress simTime stats).legitimateFlows = 0) :
    qosAnalysis findFlow clientAddresses serverAddress simTime stats =
      { lines := (flowLoop findFlow clientAddresses serverAddress simTime stats).printed
        report := Report.noLegitimateFlows, exitCode := 0 } := by
  cases stats with
  | nil => exact absurd rfl hne
  | cons a rest => simp [qosAnalysis, h0]

theorem qosAnalysis_of_count_pos (findFlow : FlowId → FiveTuple)
    (clientAddresses : List Ipv4Address) (serverAddress : Ipv4Address) (simTime : ℚ)
    (stats : List (FlowId × FlowStats)) (hne : stats ≠ [])
    (hpos : 0 < (flowLoop findFlow clientAddresses serverAddress simTime stats).legitimateFlows) :
    qosAnalysis findFlow clientAddresses serverAddress simTime stats =
      { lines := (flowLoop findFlow clientAddresses serverAddress simTime stats).printed
        report := Report.aggregate
          (flowLoop findFlow clientAddresses serverAddress simTime stats).legitimateFlows
          ((flowLoop findFlow clientAddresses serverAddress simTime stats).totalThroughput /
            ((flowLoop findFlow clientAddresses serverAddress simTime stats).legitimateFlows : ℚ))
          ((flowLoop findFlow clientAddresses serverAddress simTime stats).totalDelay /
            ((flowLoop findFlow clientAddresses serverAddress simTime stats).legitimateFlows : ℚ)
              * 1000)
          ((flowLoop findFlow clientAddresses serverAddress simTime stats).totalJitter /
            ((flowLoop findFlow clientAddresses serverAddress simTime stats).legitimateFlows : ℚ)
              * 1000)
          ((flowLoop findFlow clientAddresses serverAddress simTime stats).totalPacketLoss /
            ((flowLoop findFlow clientAddresses serverAddress simTime stats).legitimateFlows : ℚ)
              * 100)
        exitCode := 0 } := by
  cases stats with
  | nil => exact absurd rfl hne
  | cons a rest => simp [qosAnalysis, hpos]

theorem legitimateEntries_eq_nil_iff (findFlow : FlowId → FiveTuple)
    (clientAddresses : List Ipv4Address) (serverAddress : Ipv4Address)
    (stats : List (FlowId × FlowStats)) :
    legitimateEntries findFlow clientAddresses serverAddress stats = [] ↔
      ¬ ∃ flow ∈ stats, isLegitimate (findFlow flow.1) clientAddresses serverAddress = true := by
  rw [← legitimateEntries_length_pos_iff, List.length_pos]
  exact not_not.symm

theorem ne_nil_of_exists_legitimate (findFlow : FlowId → FiveTuple)
    (clientAddresses : List Ipv4Address) (serverAddress : Ipv4Address)
    (stats : List (FlowId × FlowStats))
    (hex : ∃ flow ∈ stats, isLegitimate (findFlow flow.1) clientAddresses serverAddress = true) :
    stats ≠ [] := by
  rintro rfl
  obtain ⟨flow, hmem, _⟩ := hex
  exact absurd hmem (List.not_mem_nil flow)

/-- The outcome when some flow is legitimate and the 32-bit counter does not wrap. -/
theorem qosAnalysis_of_legitimate (findFlow : FlowId → FiveTuple)
    (clientAddresses : List Ipv4Address) (serverAddress : Ipv4Address) (simTime : ℚ)
    (stats : List (FlowId × FlowStats))
    (hex : ∃ flow ∈ stats, isLegitimate (findFlow flow.1) clientAddresses serverAddress = true)
    (hcount : (legitimateEntries findFlow clientAddresses serverAddress stats).length < 2 ^ 32) :
    qosAnalysis findFlow clientAddresses serverAddress simTime stats =
      { lines := (legitimateEntries findFlow clientAddresses serverAddress stats).map
          (fun f => flowLine (findFlow f.1) simTime f)
        report := Report.aggregate
          (legitimateEntries findFlow clientAddresses serverAddress stats).length
          (((legitimateEntries findFlow clientAddresses serverAddress stats).map
              (fun f => throughput f.2 simTime)).sum /
            ((legitimateEntries findFlow clientAddresses serverAddress stats).length : ℚ))
          (((legitimateEntries findFlow clientAddresses serverAddress stats).map
              (fun f => avgDelay f.2)).sum /
            ((legitimateEntries findFlow clientAddresses serverAddress stats).length : ℚ) * 1000)
          (((legitimateEntries findFlow clientAddresses serverAddress stats).map
              (fun f => avgJitter f.2)).sum /
            ((legitimateEntries findFlow clientAddresses serverAddress stats).length : ℚ) * 1000)
          (((legitimateEntries findFlow clientAddresses serverAddress stats).map
              (fun f => packetLoss f.2)).sum /
            ((legitimateEntries findFlow clientAddresses serverAddress stats).length : ℚ) * 100)
        exitCode := 0 } := by
  obtain ⟨h1, h2, h3, h4, h5, h6⟩ :=
    flowLoop_eq findFlow clientAddresses serverAddress simTime stats
  have hlen := (legitimateEntries_length_pos_iff findFlow clientAddresses serverAddress stats).mpr hex
  have h6' : (flowLoop findFlow clientAddresses serverAddress simTime stats).legitimateFlows =
      (legitimateEntries findFlow clientAddresses serverAddress stats).length := by
    rw [h6]; exact Nat.mod_eq_of_lt hcount
  have hne := ne_nil_of_exists_legitimate findFlow clientAddresses serverAddress stats hex
  rw [qosAnalysis_of_count_pos findFlow clientAddresses serverAddress simTime stats hne
    (by rw [h6']; exact hlen)]
  rw [h1, h2, h3, h4, h5, h6']

/-- The outcome when the map is not empty but no flow is legitimate. -/
theorem qosAnalysis_of_no_legitimate (findFlow : FlowId → FiveTuple)
    (clientAddresses : List Ipv4Address) (serverAddress : Ipv4Address) (simTime : ℚ)
    (stats : List (FlowId × FlowStats)) (hne : stats ≠ [])
    (hnone : ¬ ∃ flow ∈ stats,
      isLegitimate (findFlow flow.1) clientAddresses serverAddress = true) :
    qosAnalysis findFlow clientAddresses serverAddress simTime stats =
      { lines := [], report := Report.noLegitimateFlows, exitCode := 0 } := by
  obtain ⟨h1, _, _, _, _, h6⟩ :=
    flowLoop_eq findFlow clientAddresses serverAddress simTime stats
  have hnil := (legitimateEntries_eq_nil_iff findFlow clientAddresses serverAddress stats).mpr hnone
  rw [hnil] at h1 h6
  have h6' : (flowLoop findFlow clientAddresses serverAddress simTime stats).legitimateFlows = 0 := by
    rw [h6]; simp
  rw [qosAnalysis_of_count_zero findFlow clientAddresses serverAddress simTime stats hne h6', h1]
  simp

theorem mean_map_mul_const {α : Type} (xs : List α) (f : α → ℚ) (c : ℚ) :
    mean (xs.map (fun x => f x * c)) = (xs.map f).sum / (xs.length : ℚ) * c := by
  unfold mean
  rw [List.sum_map_mul_right, List.length_map]
  ring

theorem report_averages_of_legitimate (findFlow : FlowId → FiveTuple)
    (clientAddresses : List Ipv4Address) (serverAddress : Ipv4Address) (simTime : ℚ)
    (stats : List (FlowId × FlowStats))
    (hex : ∃ flow ∈ stats, isLegitimate (findFlow flow.1) clientAddresses serverAddress = true)
    (hcount : (legitimateEntries findFlow clientAddresses serverAddress stats).length < 2 ^ 32) :
    (qosAnalysis findFlow clientAddresses serverAddress simTime stats).report.averages =
      some (codeAverages findFlow clientAddresses serverAddress simTime stats) := by
  rw [qosAnalysis_of_legitimate findFlow clientAddresses serverAddress simTime stats hex hcount]
  simp only [Report.averages, codeAverages, mean_map_mul_const]
  simp [mean]

theorem sum_map_nonneg {α : Type} (xs : List α) (f : α → ℚ) (h : ∀ x ∈ xs, 0 ≤ f x) :
    0 ≤ (xs.map f).sum := by
  apply List.sum_nonneg
  intro y hy
  obtain ⟨x, hx, rfl⟩ := List.mem_map.mp hy
  exact h x hx

theorem GetSeconds_nonneg (t : Time) (h : 0 ≤ t.ticks) : 0 ≤ t.GetSeconds := by
  unfold Time.GetSeconds
  have : (0 : ℚ) ≤ (t.ticks : ℚ) := by exact_mod_cast h
  exact div_nonneg this (le_of_lt ticksPerSecond_pos)

theorem throughput_nonneg (fs : FlowStats) (simTime : ℚ) (hsim : 2 < simTime) :
    0 ≤ throughput fs simTime := by
  have hpos := flowDuration_pos fs simTime hsim
  unfold throughput
  positivity

theorem packetLoss_nonneg (fs : FlowStats) : 0 ≤ packetLoss fs := by
  unfold packetLoss
  split
  · positivity
  · exact le_refl 0

theorem avgDelay_nonneg (fs : FlowStats) (h : 0 ≤ fs.delaySum.ticks) : 0 ≤ avgDelay fs := by
  unfold avgDelay
  split
  · exact div_nonneg (GetSeconds_nonneg _ h) (Nat.cast_nonneg _)
  · exact le_refl 0

theorem avgJitter_nonneg (fs : FlowStats) (h : 0 ≤ fs.jitterSum.ticks) : 0 ≤ avgJitter fs := by
  unfold avgJitter
  split
  · exact div_nonneg (GetSeconds_nonneg _ h) (Nat.cast_nonneg _)
  · exact le_refl 0

/-! ## The properties -/

/-- C1: a flow is treated as legitimate exactly when its source address equals some
member of the client address list and its destination address equals the server
address. One loop iteration on such a flow prints its line, adds its metrics to the
totals and increments the 32-bit counter `legitimateFlows`; on any other flow it
leaves the counter, the totals and the output unchanged. Over the whole map the
printed lines are those of the legitimate entries, in map order. -/
theorem classification_legitimate_iff (findFlow : FlowId → FiveTuple)
    (clientAddresses : List Ipv4Address) (serverAddress : Ipv4Address) (simTime : ℚ)
    (s : Totals) (flow : FlowId × FlowStats) (stats : List (FlowId × FlowStats)) :
    (isLegitimate (findFlow flow.1) clientAddresses serverAddress = true ↔
      (∃ c ∈ clientAddresses, (findFlow flow.1).sourceAddress = c) ∧
        (findFlow flow.1).destinationAddress = serverAddress) ∧
    (((∃ c ∈ clientAddresses, (findFlow flow.1).sourceAddress = c) ∧
        (findFlow flow.1).destinationAddress = serverAddress) →
      loopBody findFlow clientAddresses serverAddress simTime s flow =
        { legitimateFlows := (s.legitimateFlows + 1) % 2 ^ 32
          totalThroughput := s.totalThroughput + throughput flow.2 simTime
          totalPacketLoss := s.totalPacketLoss + packetLoss flow.2
          totalDelay := s.totalDelay + avgDelay flow.2
          totalJitter := s.totalJitter + avgJitter flow.2
          printed := s.printed ++ [flowLine (findFlow flow.1) simTime flow] }) ∧
    (¬ ((∃ c ∈ clientAddresses, (findFlow flow.1).sourceAddress = c) ∧
        (findFlow flow.1).destinationAddress = serverAddress) →
      loopBody findFlow clientAddresses serverAddress simTime s flow = s) ∧
    (qosAnalysis findFlow clientAddresses serverAddress simTime stats).lines =
      (stats.filter (fun f => isLegitimate (findFlow f.1) clientAddresses serverAddress)).map
        (fun f => flowLine (findFlow f.1) simTime f) := by
  refine ⟨isLegitimate_iff _ _ _, ?_, ?_, ?_⟩
  · intro h
    exact loopBody_of_legitimate _ _ _ _ _ _ ((isLegitimate_iff _ _ _).mpr h)
  · intro h
    apply loopBody_of_not_legitimate
    cases hl : isLegitimate (findFlow flow.1) clientAddresses serverAddress with
    | false => rfl
    | true => exact absurd ((isLegitimate_iff _ _ _).mp hl) h
  · have hp := (flowLoop_eq findFlow clientAddresses serverAddress simTime stats).1
    unfold qosAnalysis
    cases stats with
    | nil => simp
    | cons a rest =>
      simp only [List.isEmpty_cons, Bool.false_eq_true, if_false]
      split
      · exact hp
      · exact hp

/-- Witness for C1: with clients `1` and `2` and server `100`, the flow from `2` is
counted and reported and the flow from `3` is skipped. -/
theorem classification_legitimate_iff_witness :
    loopBody sampleFindFlow [1, 2] 100 60 Totals.init (2, busyStats) =
        { legitimateFlows := (Totals.init.legitimateFlows + 1) % 2 ^ 32
          totalThroughput := Totals.init.totalThroughput + throughput busyStats 60
          totalPacketLoss := Totals.init.totalPacketLoss + packetLoss busyStats
          totalDelay := Totals.init.totalDelay + avgDelay busyStats
          totalJitter := Totals.init.totalJitter + avgJitter busyStats
          printed := Totals.init.printed ++ [flowLine (sampleFindFlow 2) 60 (2, busyStats)] } ∧
    loopBody sampleFindFlow [1, 2] 100 60 Totals.init (3, busyStats) = Totals.init :=
  ⟨(classification_legitimate_iff sampleFindFlow [1, 2] 100 60 Totals.init (2, busyStats) []).2.1
      ⟨⟨2, by decide, rfl⟩, rfl⟩,
   (classification_legitimate_iff sampleFindFlow [1, 2] 100 60 Totals.init (3, busyStats) []).2.2.1
      (by simp [sampleFindFlow])⟩

/-- C5: for a legitimate flow the loss ratio that the loop computes, adds to
`totalPacketLoss` and prints (as a percentage) is `lostPackets / txPackets` when
`txPackets > 0` and zero when `txPackets = 0`. -/
theorem packetLoss_legitimate (findFlow : FlowId → FiveTuple)
    (clientAddresses : List Ipv4Address) (serverAddress : Ipv4Address) (simTime : ℚ)
    (s : Totals) (flow : FlowId × FlowStats)
    (hlegit : isLegitimate (findFlow flow.1) clientAddresses serverAddress = true) :
    ∃ loss : ℚ,
      (0 < flow.2.txPackets → loss = (flow.2.lostPackets : ℚ) / (flow.2.txPackets : ℚ)) ∧
      (flow.2.txPackets = 0 → loss = 0) ∧
      (loopBody findFlow clientAddresses serverAddress simTime s flow).totalPacketLoss =
        s.totalPacketLoss + loss ∧
      ((loopBody findFlow clientAddresses serverAddress simTime s flow).printed.map
        (fun l => l.packetLossPct)) = s.printed.map (fun l => l.packetLossPct) ++ [loss * 100] := by
  refine ⟨packetLoss flow.2, ?_, ?_, ?_, ?_⟩
  · intro h
    simp [packetLoss, h]
  · intro h
    simp [packetLoss, h]
  · rw [loopBody_of_legitimate _ _ _ _ _ _ hlegit]
  · rw [loopBody_of_legitimate _ _ _ _ _ _ hlegit]
    simp [flowLine]

/-- Witness for C5: a legitimate flow with ten packets sent and five lost adds one half
to the loss total and prints fifty percent. -/
theorem packetLoss_legitimate_witness :
    ∃ loss : ℚ,
      (0 < busyStats.txPackets → loss = (busyStats.lostPackets : ℚ) / (busyStats.txPackets : ℚ)) ∧
      (busyStats.txPackets = 0 → loss = 0) ∧
      (loopBody sampleFindFlow [1, 2] 100 60 Totals.init (2, busyStats)).totalPacketLoss =
        Totals.init.totalPacketLoss + loss ∧
      ((loopBody sampleFindFlow [1, 2] 100 60 Totals.init (2, busyStats)).printed.map
        (fun l => l.packetLossPct)) =
          Totals.init.printed.map (fun l => l.packetLossPct) ++ [loss * 100] :=
  packetLoss_legitimate sampleFindFlow [1, 2] 100 60 Totals.init (2, busyStats) (by decide)

/-- C6: for a legitimate flow the average delay that the loop computes, adds to
`totalDelay` and prints (in milliseconds) is the cumulative delay in seconds divided by
`rxPackets` when `rxPackets > 0` and zero when `rxPackets = 0`. -/
theorem avgDelay_legitimate (findFlow : FlowId → FiveTuple)
    (clientAddresses : List Ipv4Address) (serverAddress : Ipv4Address) (simTime : ℚ)
    (s : Totals) (flow : FlowId × FlowStats)
    (hlegit : isLegitimate (findFlow flow.1) clientAddresses serverAddress = true) :
    ∃ delay : ℚ,
      (0 < flow.2.rxPackets → delay = flow.2.delaySum.GetSeconds / (flow.2.rxPackets : ℚ)) ∧
      (flow.2.rxPackets = 0 → delay = 0) ∧
      (loopBody findFlow clientAddresses serverAddress simTime s flow).totalDelay =
        s.totalDelay + delay ∧
      ((loopBody findFlow clientAddresses serverAddress simTime s flow).printed.map
        (fun l => l.avgDelayMs)) = s.printed.map (fun l => l.avgDelayMs) ++ [delay * 1000] := by
  refine ⟨avgDelay flow.2, ?_, ?_, ?_, ?_⟩
  · intro h
    simp [avgDelay, h]
  · intro h
    simp [avgDelay, h]
  · rw [loopBody_of_legitimate _ _ _ _ _ _ hlegit]
  · rw [loopBody_of_legitimate _ _ _ _ _ _ hlegit]
    simp [flowLine]

/-- Witness for C6 on a legitimate flow with five received packets. -/
theorem avgDelay_legitimate_witness :
    ∃ delay : ℚ,
      (0 < busyStats.rxPackets → delay = busyStats.delaySum.GetSeconds / (busyStats.rxPackets : ℚ)) ∧
      (busyStats.rxPackets = 0 → delay = 0) ∧
      (loopBody sampleFindFlow [1, 2] 100 60 Totals.init (2, busyStats)).totalDelay =
        Totals.init.totalDelay + delay ∧
      ((loopBody sampleFindFlow [1, 2] 100 60 Totals.init (2, busyStats)).printed.map
        (fun l => l.avgDelayMs)) =
          Totals.init.printed.map (fun l => l.avgDelayMs) ++ [delay * 1000] :=
  avgDelay_legitimate sampleFindFlow [1, 2] 100 60 Totals.init (2, busyStats) (by decide)

/-- C7: for a legitimate flow whose `rxPackets` counter is a 32-bit value, the average
jitter that the loop computes, adds to `totalJitter` and prints (in milliseconds) is the
cumulative jitter in seconds divided by `rxPackets - 1` when `rxPackets > 1`, where the
32-bit subtraction does not wrap, and is zero when `rxPackets` is `0` or `1`. At
`rxPackets = 0` the subtraction, which would wrap to `4294967295`, is not part of the
result. -/
theorem avgJitter_legitimate (findFlow : FlowId → FiveTuple)
    (clientAddresses : List Ipv4Address) (serverAddress : Ipv4Address) (simTime : ℚ)
    (s : Totals) (flow : FlowId × FlowStats)
    (hlegit : isLegitimate (findFlow flow.1) clientAddresses serverAddress = true)
    (hrange : flow.2.rxPackets < 2 ^ 32) :
    ∃ jitter : ℚ,
      (1 < flow.2.rxPackets →
        jitter = flow.2.jitterSum.GetSeconds / ((flow.2.rxPackets : ℚ) - 1) ∧
        usub32 flow.2.rxPackets 1 = flow.2.rxPackets - 1) ∧
      (flow.2.rxPackets = 0 ∨ flow.2.rxPackets = 1 → jitter = 0) ∧
      usub32 0 1 = 4294967295 ∧
      (loopBody findFlow clientAddresses serverAddress simTime s flow).totalJitter =
        s.totalJitter + jitter ∧
      ((loopBody findFlow clientAddresses serverAddress simTime s flow).printed.map
        (fun l => l.avgJitterMs)) = s.printed.map (fun l => l.avgJitterMs) ++ [jitter * 1000] := by
  refine ⟨avgJitter flow.2, ?_, ?_, ?_, ?_, ?_⟩
  · intro h
    have hu := usub32_one flow.2.rxPackets h hrange
    refine ⟨?_, hu⟩
    have hc : ((flow.2.rxPackets - 1 : Nat) : ℚ) = (flow.2.rxPackets : ℚ) - 1 := by
      rw [Nat.cast_sub (le_of_lt h)]
      simp
    simp only [avgJitter, gt_iff_lt, h, if_true, hu, hc]
  · intro h
    have h' : ¬ (flow.2.rxPackets > 1) := by omega
    simp only [avgJitter, h', if_false]
  · decide
  · rw [loopBody_of_legitimate _ _ _ _ _ _ hlegit]
  · rw [loopBody_of_legitimate _ _ _ _ _ _ hlegit]
    simp [flowLine]

/-- Witness for C7 on a legitimate flow with five received packets. -/
theorem avgJitter_legitimate_witness :
    ∃ jitter : ℚ,
      (1 < busyStats.rxPackets →
        jitter = busyStats.jitterSum.GetSeconds / ((busyStats.rxPackets : ℚ) - 1) ∧
        usub32 busyStats.rxPackets 1 = busyStats.rxPackets - 1) ∧
      (busyStats.rxPackets = 0 ∨ busyStats.rxPackets = 1 → jitter = 0) ∧
      usub32 0 1 = 4294967295 ∧
      (loopBody sampleFindFlow [1, 2] 100 60 Totals.init (2, busyStats)).totalJitter =
        Totals.init.totalJitter + jitter ∧
      ((loopBody sampleFindFlow [1, 2] 100 60 Totals.init (2, busyStats)).printed.map
        (fun l => l.avgJitterMs)) =
          Totals.init.printed.map (fun l => l.avgJitterMs) ++ [jitter * 1000] :=
  avgJitter_legitimate sampleFindFlow [1, 2] 100 60 Totals.init (2, busyStats) (by decide)
    (by decide)

/-- C4, as the program computes it: for a legitimate flow the duration `D` used by
the loop is last arrival minus first arrival when that difference is positive and
`simTime - 2` otherwise, and the throughput that the loop adds to `totalThroughput` and
prints is `rxBytes * 8 / (D * 10 ^ 6)`, a value in megabits per second: it is the
bits-per-second quantity `rxBytes * 8 / D` divided by `10 ^ 6`. -/
theorem throughput_legitimate_mbps (findFlow : FlowId → FiveTuple)
    (clientAddresses : List Ipv4Address) (serverAddress : Ipv4Address) (simTime : ℚ)
    (s : Totals) (flow : FlowId × FlowStats)
    (hlegit : isLegitimate (findFlow flow.1) clientAddresses serverAddress = true) :
    ∃ mbps : ℚ,
      flowDuration flow.2 simTime = specDuration flow.2 simTime ∧
      mbps = ((flow.2.rxBytes : ℚ) * 8) / (specDuration flow.2 simTime * 1000000) ∧
      mbps = specThroughputBps flow.2 simTime / 1000000 ∧
      mbps * 1000000 = specThroughputBps flow.2 simTime ∧
      (loopBody findFlow clientAddresses serverAddress simTime s flow).totalThroughput =
        s.totalThroughput + mbps ∧
      ((loopBody findFlow clientAddresses serverAddress simTime s flow).printed.map
        (fun l => l.throughputMbps)) = s.printed.map (fun l => l.throughputMbps) ++ [mbps] := by
  have hd := flowDuration_eq_specDuration flow.2 simTime
  refine ⟨throughput flow.2 simTime, hd, ?_, ?_, ?_, ?_, ?_⟩
  · simp only [throughput, hd]
  · simp only [throughput, specThroughputBps, hd]
    rw [div_mul_eq_div_div]
  · simp only [throughput, specThroughputBps, hd]
    rw [div_mul_eq_div_div]
    norm_num
  · rw [loopBody_of_legitimate _ _ _ _ _ _ hlegit]
  · rw [loopBody_of_legitimate _ _ _ _ _ _ hlegit]
    simp [flowLine]

/-- Witness for C4 on a legitimate flow receiving a million bytes over eight seconds. -/
theorem throughput_legitimate_mbps_witness :
    ∃ mbps : ℚ,
      flowDuration busyStats 60 = specDuration busyStats 60 ∧
      mbps = ((busyStats.rxBytes : ℚ) * 8) / (specDuration busyStats 60 * 1000000) ∧
      mbps = specThroughputBps busyStats 60 / 1000000 ∧
      mbps * 1000000 = specThroughputBps busyStats 60 ∧
      (loopBody sampleFindFlow [1, 2] 100 60 Totals.init (2, busyStats)).totalThroughput =
        Totals.init.totalThroughput + mbps ∧
      ((loopBody sampleFindFlow [1, 2] 100 60 Totals.init (2, busyStats)).printed.map
        (fun l => l.throughputMbps)) =
          Totals.init.printed.map (fun l => l.throughputMbps) ++ [mbps] :=
  throughput_legitimate_mbps sampleFindFlow [1, 2] 100 60 Totals.init (2, busyStats) (by decide)

/-- C4 as stated fails: for the legitimate flow `busyStats` (a million bytes received
over eight seconds) the loop computes the throughput value `1`, whereas received bytes
times eight over the duration is `1000000`. -/
theorem throughput_not_bits_per_second :
    isLegitimate (sampleFindFlow 2) [1, 2] 100 = true ∧
    (loopBody sampleFindFlow [1, 2] 100 60 Totals.init (2, busyStats)).totalThroughput = 1 ∧
    throughput busyStats 60 = 1 ∧
    specThroughputBps busyStats 60 = 1000000 ∧
    throughput busyStats 60 ≠ specThroughputBps busyStats 60 := by
  have h1 : throughput busyStats 60 = 1 := by
    norm_num [throughput, flowDuration, busyStats, sampleStats, Time.sub, Time.GetSeconds,
      ticksPerSecond]
  have h2 : specThroughputBps busyStats 60 = 1000000 := by
    norm_num [specThroughputBps, specDuration, busyStats, sampleStats, Time.GetSeconds,
      ticksPerSecond]
  refine ⟨by decide, ?_, h1, h2, ?_⟩
  · rw [loopBody_of_legitimate _ _ _ _ _ _ (by decide)]
    simp [Totals.init, h1]
  · rw [h1, h2]
    norm_num

/-- C9, as the program guarantees it: whenever `simTime` exceeds the client start time
of two seconds, the duration used for a flow, and hence the divisor
`flowDuration * 1000000` of the throughput computation, is strictly positive; this
includes flows with zero or one received packet. -/
theorem flowDuration_pos_of_simTime_gt_two (fs : FlowStats) (simTime : ℚ)
    (hsim : 2 < simTime) :
    0 < flowDuration fs simTime ∧ 0 < flowDuration fs simTime * 1000000 ∧
    (fs.timeLastRxPacket = fs.timeFirstRxPacket → flowDuration fs simTime = simTime - 2) := by
  have hpos := flowDuration_pos fs simTime hsim
  refine ⟨hpos, by positivity, ?_⟩
  intro heq
  simp [flowDuration, heq, Time.sub, Time.GetSeconds]

/-- Witness for C9 on a flow without any received packet and the default `simTime`. -/
theorem flowDuration_pos_of_simTime_gt_two_witness :
    0 < flowDuration idleStats 60 ∧ 0 < flowDuration idleStats 60 * 1000000 ∧
    (idleStats.timeLastRxPacket = idleStats.timeFirstRxPacket →
      flowDuration idleStats 60 = 60 - 2) :=
  flowDuration_pos_of_simTime_gt_two idleStats 60 (by norm_num)

/-- C9 as stated fails: `simTime = 2` is accepted by the program, and for a legitimate
flow without received packets the duration used as divisor is then `0`. -/
theorem flowDuration_zero_at_simTime_two :
    isLegitimate (sampleFindFlow 1) [1, 2] 100 = true ∧
    flowDuration idleStats 2 = 0 ∧
    ¬ (0 < flowDuration idleStats 2) ∧
    flowDuration idleStats 2 * 1000000 = 0 := by
  have h : flowDuration idleStats 2 = 0 := by
    norm_num [flowDuration, idleStats, sampleStats, Time.sub, Time.GetSeconds]
  refine ⟨by decide, h, ?_, ?_⟩
  · rw [h]; norm_num
  · rw [h]; norm_num

/-- C2, as the program computes it: when the map has at least one legitimate flow (and
fewer than `2 ^ 32` of them, the range of the counter), each printed aggregate is the
arithmetic mean of the corresponding printed per-flow metric taken over all legitimate
flows; flows with `txPackets = 0` are not left out. -/
theorem aggregate_is_mean_over_all_legitimate (findFlow : FlowId → FiveTuple)
    (clientAddresses : List Ipv4Address) (serverAddress : Ipv4Address) (simTime : ℚ)
    (stats : List (FlowId × FlowStats))
    (hex : ∃ flow ∈ stats, isLegitimate (findFlow flow.1) clientAddresses serverAddress = true)
    (hcount : (legitimateEntries findFlow clientAddresses serverAddress stats).length < 2 ^ 32) :
    (qosAnalysis findFlow clientAddresses serverAddress simTime stats).report =
      Report.aggregate (legitimateEntries findFlow clientAddresses serverAddress stats).length
        (mean ((legitimateEntries findFlow clientAddresses serverAddress stats).map
          (fun flow => throughput flow.2 simTime)))
        (mean ((legitimateEntries findFlow clientAddresses serverAddress stats).map
          (fun flow => avgDelay flow.2 * 1000)))
        (mean ((legitimateEntries findFlow clientAddresses serverAddress stats).map
          (fun flow => avgJitter flow.2 * 1000)))
        (mean ((legitimateEntries findFlow clientAddresses serverAddress stats).map
          (fun flow => packetLoss flow.2 * 100))) ∧
    (qosAnalysis findFlow clientAddresses serverAddress simTime stats).report.averages =
      some (codeAverages findFlow clientAddresses serverAddress simTime stats) := by
  refine ⟨?_, report_averages_of_legitimate _ _ _ _ _ hex hcount⟩
  rw [qosAnalysis_of_legitimate findFlow clientAddresses serverAddress simTime stats hex hcount]
  simp only [mean_map_mul_const]
  simp [mean]

/-- Witness for C2 on a map with two legitimate flows and one attack flow. -/
theorem aggregate_is_mean_over_all_legitimate_witness :
    (qosAnalysis sampleFindFlow [1, 2] 100 60
        [(1, idleStats), (2, busyStats), (3, busyStats)]).report.averages =
      some (codeAverages sampleFindFlow [1, 2] 100 60
        [(1, idleStats), (2, busyStats), (3, busyStats)]) :=
  (aggregate_is_mean_over_all_legitimate sampleFindFlow [1, 2] 100 60
    [(1, idleStats), (2, busyStats), (3, busyStats)]
    ⟨(2, busyStats), by simp, by decide⟩ (by decide)).2

/-- C2 as stated fails: with the legitimate flows `idleStats` (no packet sent) and
`busyStats`, the program prints the averages `1/2`, `6`, `1`, `25`, the means over both
flows, whereas the means over the legitimate flows with `txPackets > 0` are `1`, `12`,
`2`, `50`. -/
theorem aggregate_not_mean_over_sent_only :
    (∃ flow ∈ [(1, idleStats), (2, busyStats)],
      isLegitimate (sampleFindFlow flow.1) [1, 2] 100 = true) ∧
    (qosAnalysis sampleFindFlow [1, 2] 100 60 [(1, idleStats), (2, busyStats)]).report.averages =
      some (1 / 2, 6, 1, 25) ∧
    specAverages sampleFindFlow [1, 2] 100 60 [(1, idleStats), (2, busyStats)] = (1, 12, 2, 50) ∧
    (qosAnalysis sampleFindFlow [1, 2] 100 60 [(1, idleStats), (2, busyStats)]).report.averages ≠
      some (specAverages sampleFindFlow [1, 2] 100 60 [(1, idleStats), (2, busyStats)]) := by
  have hex : ∃ flow ∈ [(1, idleStats), (2, busyStats)],
      isLegitimate (sampleFindFlow flow.1) [1, 2] 100 = true :=
    ⟨(2, busyStats), by simp, by decide⟩
  have hentries : legitimateEntries sampleFindFlow [1, 2] 100 [(1, idleStats), (2, busyStats)] =
      [(1, idleStats), (2, busyStats)] := by decide
  have hcode : codeAverages sampleFindFlow [1, 2] 100 60 [(1, idleStats), (2, busyStats)] =
      (1 / 2, 6, 1, 25) := by
    simp only [codeAverages, hentries]
    norm_num [mean, throughput, flowDuration, avgDelay, avgJitter, packetLoss, usub32,
      idleStats, busyStats, sampleStats, Time.sub, Time.GetSeconds, ticksPerSecond]
  have hspec : specAverages sampleFindFlow [1, 2] 100 60 [(1, idleStats), (2, busyStats)] =
      (1, 12, 2, 50) := by
    have hsent : List.filter (fun flow : FlowId × FlowStats => decide (flow.2.txPackets > 0))
        [(1, idleStats), (2, busyStats)] = [(2, busyStats)] := by decide
    simp only [specAverages, hentries, hsent]
    norm_num [mean, throughput, flowDuration, avgDelay, avgJitter, packetLoss, usub32,
      busyStats, sampleStats, Time.sub, Time.GetSeconds, ticksPerSecond]
  have hrep := report_averages_of_legitimate sampleFindFlow [1, 2] 100 60
    [(1, idleStats), (2, busyStats)] hex (by decide)
  refine ⟨hex, ?_, hspec, ?_⟩
  · rw [hrep, hcode]
  · rw [hrep, hcode, hspec]
    intro h
    have h1 := congrArg (fun o => o.map (fun q : ℚ × ℚ × ℚ × ℚ => q.1)) h
    norm_num at h1

/-- C3: for a flow map with fewer than `2 ^ 32` legitimate flows (the range of the
counter), the analysis prints the cross-flow averages if and only if at least one
legitimate flow exists. The averages it then prints are the four totals over the
legitimate flows divided by their positive number (delay and jitter scaled to
milliseconds, loss to percent), and the status is `0`. When no legitimate flow exists
the report is one of the two explicit empty-result messages, which carry no average, so
nothing is divided by the count. -/
theorem averages_iff_legitimate_exists (findFlow : FlowId → FiveTuple)
    (clientAddresses : List Ipv4Address) (serverAddress : Ipv4Address) (simTime : ℚ)
    (stats : List (FlowId × FlowStats))
    (hcount : (legitimateEntries findFlow clientAddresses serverAddress stats).length < 2 ^ 32) :
    ((∃ n a b c d, (qosAnalysis findFlow clientAddresses serverAddress simTime stats).report =
        Report.aggregate n a b c d) ↔
      ∃ flow ∈ stats, isLegitimate (findFlow flow.1) clientAddresses serverAddress = true) ∧
    (∀ n a b c d, (qosAnalysis findFlow clientAddresses serverAddress simTime stats).report =
        Report.aggregate n a b c d →
      0 < n ∧ n = (legitimateEntries findFlow clientAddresses serverAddress stats).length ∧
      a = ((legitimateEntries findFlow clientAddresses serverAddress stats).map
            (fun f => throughput f.2 simTime)).sum / (n : ℚ) ∧
      b = ((legitimateEntries findFlow clientAddresses serverAddress stats).map
            (fun f => avgDelay f.2)).sum / (n : ℚ) * 1000 ∧
      c = ((legitimateEntries findFlow clientAddresses serverAddress stats).map
            (fun f => avgJitter f.2)).sum / (n : ℚ) * 1000 ∧
      d = ((legitimateEntries findFlow clientAddresses serverAddress stats).map
            (fun f => packetLoss f.2)).sum / (n : ℚ) * 100) ∧
    ((¬ ∃ flow ∈ stats, isLegitimate (findFlow flow.1) clientAddresses serverAddress = true) →
      ((qosAnalysis findFlow clientAddresses serverAddress simTime stats).report =
          Report.noLegitimateFlows ∨
        (qosAnalysis findFlow clientAddresses serverAddress simTime stats).report =
          Report.noFlowsDetected) ∧
      (qosAnalysis findFlow clientAddresses serverAddress simTime stats).report.averages = none ∧
      (qosAnalysis findFlow clientAddresses serverAddress simTime stats).lines = []) ∧
    ((∃ flow ∈ stats, isLegitimate (findFlow flow.1) clientAddresses serverAddress = true) →
      (qosAnalysis findFlow clientAddresses serverAddress simTime stats).report =
        Report.aggregate
          (legitimateEntries findFlow clientAddresses serverAddress stats).length
          (((legitimateEntries findFlow clientAddresses serverAddress stats).map
              (fun f => throughput f.2 simTime)).sum /
            ((legitimateEntries findFlow clientAddresses serverAddress stats).length : ℚ))
          (((legitimateEntries findFlow clientAddresses serverAddress stats).map
              (fun f => avgDelay f.2)).sum /
            ((legitimateEntries findFlow clientAddresses serverAddress stats).length : ℚ) * 1000)
          (((legitimateEntries findFlow clientAddresses serverAddress stats).map
              (fun f => avgJitter f.2)).sum /
            ((legitimateEntries findFlow clientAddresses serverAddress stats).length : ℚ) * 1000)
          (((legitimateEntries findFlow clientAddresses serverAddress stats).map
              (fun f => packetLoss f.2)).sum /
            ((legitimateEntries findFlow clientAddresses serverAddress stats).length : ℚ) * 100) ∧
      (qosAnalysis findFlow clientAddresses serverAddress simTime stats).exitCode = 0) := by
  have hempty : (¬ ∃ flow ∈ stats,
      isLegitimate (findFlow flow.1) clientAddresses serverAddress = true) →
      ((qosAnalysis findFlow clientAddresses serverAddress simTime stats).report =
          Report.noLegitimateFlows ∨
        (qosAnalysis findFlow clientAddresses serverAddress simTime stats).report =
          Report.noFlowsDetected) ∧
      (qosAnalysis findFlow clientAddresses serverAddress simTime stats).report.averages = none ∧
      (qosAnalysis findFlow clientAddresses serverAddress simTime stats).lines = [] := by
    intro hnone
    by_cases hne : stats = []
    · subst hne
      rw [qosAnalysis_nil]
      exact ⟨Or.inr rfl, rfl, rfl⟩
    · rw [qosAnalysis_of_no_legitimate _ _ _ _ _ hne hnone]
      exact ⟨Or.inl rfl, rfl, rfl⟩
  refine ⟨⟨?_, ?_⟩, ?_, hempty, ?_⟩
  · rintro ⟨n, a, b, c, d, hrep⟩
    by_contra hnone
    rcases (hempty hnone).1 with h | h
    · rw [h] at hrep; exact Report.noConfusion hrep
    · rw [h] at hrep; exact Report.noConfusion hrep
  · intro hex
    rw [qosAnalysis_of_legitimate _ _ _ _ _ hex hcount]
    exact ⟨_, _, _, _, _, rfl⟩
  · intro n a b c d hrep
    by_cases hex : ∃ flow ∈ stats,
        isLegitimate (findFlow flow.1) clientAddresses serverAddress = true
    · rw [qosAnalysis_of_legitimate _ _ _ _ _ hex hcount] at hrep
      simp only [Report.aggregate.injEq] at hrep
      have hlen := (legitimateEntries_length_pos_iff findFlow clientAddresses
        serverAddress stats).mpr hex
      obtain ⟨hn, ha, hb, hc, hd⟩ := hrep
      subst hn
      exact ⟨hlen, rfl, ha.symm, hb.symm, hc.symm, hd.symm⟩
    · rcases (hempty hex).1 with h | h
      · rw [h] at hrep; exact Report.noConfusion hrep
      · rw [h] at hrep; exact Report.noConfusion hrep
  · intro hex
    rw [qosAnalysis_of_legitimate _ _ _ _ _ hex hcount]
    exact ⟨rfl, rfl⟩

/-- Witness for C3: a map with one legitimate flow and one attack flow prints the
averages `1`, `12`, `2`, `50` over one client, and a map holding only an attack flow
prints the empty-result message. -/
theorem averages_iff_legitimate_exists_witness :
    (qosAnalysis sampleFindFlow [1, 2] 100 60 [(2, busyStats), (3, busyStats)]).report =
      Report.aggregate 1 1 12 2 50 ∧
    (qosAnalysis sampleFindFlow [1, 2] 100 60 [(3, busyStats)]).report.averages = none := by
  have hentries : legitimateEntries sampleFindFlow [1, 2] 100
      [(2, busyStats), (3, busyStats)] = [(2, busyStats)] := by decide
  have h := ((averages_iff_legitimate_exists sampleFindFlow [1, 2] 100 60
      [(2, busyStats), (3, busyStats)] (by decide)).2.2.2
      ⟨(2, busyStats), by simp, by decide⟩).1
  refine ⟨?_, ((averages_iff_legitimate_exists sampleFindFlow [1, 2] 100 60
      [(3, busyStats)] (by decide)).2.2.1 (by simp [sampleFindFlow, isLegitimate])).2.1⟩
  rw [h, hentries]
  norm_num [throughput, flowDuration, avgDelay, avgJitter, packetLoss, usub32,
    busyStats, sampleStats, Time.sub, Time.GetSeconds, ticksPerSecond]

/-- C8: under a valid configuration (`simTime` greater than the client start time `2`
and the attacker start time `5`), if every legitimate flow has non-negative cumulative
delay and jitter (the counters are naturals), then the four metrics computed for every
legitimate flow are non-negative, so are the four numbers printed on every line, and so
are the four printed cross-flow averages. -/
theorem metrics_nonneg (findFlow : FlowId → FiveTuple)
    (clientAddresses : List Ipv4Address) (serverAddress : Ipv4Address) (simTime : ℚ)
    (stats : List (FlowId × FlowStats))
    (hclient : 2 < simTime) (hattacker : 5 < simTime)
    (hsums : ∀ flow ∈ stats,
      isLegitimate (findFlow flow.1) clientAddresses serverAddress = true →
        0 ≤ flow.2.delaySum.ticks ∧ 0 ≤ flow.2.jitterSum.ticks) :
    (∀ flow ∈ stats, isLegitimate (findFlow flow.1) clientAddresses serverAddress = true →
      0 ≤ throughput flow.2 simTime ∧ 0 ≤ avgDelay flow.2 ∧ 0 ≤ avgJitter flow.2 ∧
        0 ≤ packetLoss flow.2) ∧
    (∀ l ∈ (qosAnalysis findFlow clientAddresses serverAddress simTime stats).lines,
      0 ≤ l.throughputMbps ∧ 0 ≤ l.avgDelayMs ∧ 0 ≤ l.avgJitterMs ∧ 0 ≤ l.packetLossPct) ∧
    (∀ n a b c d, (qosAnalysis findFlow clientAddresses serverAddress simTime stats).report =
        Report.aggregate n a b c d → 0 ≤ a ∧ 0 ≤ b ∧ 0 ≤ c ∧ 0 ≤ d) := by
  have _ := hattacker
  have hflow : ∀ flow ∈ legitimateEntries findFlow clientAddresses serverAddress stats,
      0 ≤ throughput flow.2 simTime ∧ 0 ≤ avgDelay flow.2 ∧ 0 ≤ avgJitter flow.2 ∧
        0 ≤ packetLoss flow.2 := by
    intro flow hmem
    obtain ⟨hin, hl⟩ := (mem_legitimateEntries _ _ _ _ _).mp hmem
    obtain ⟨hd, hj⟩ := hsums flow hin hl
    exact ⟨throughput_nonneg _ _ hclient, avgDelay_nonneg _ hd, avgJitter_nonneg _ hj,
      packetLoss_nonneg _⟩
  refine ⟨?_, ?_, ?_⟩
  · intro flow hin hl
    exact hflow flow ((mem_legitimateEntries _ _ _ _ _).mpr ⟨hin, hl⟩)
  · intro l hl
    rw [qosAnalysis_lines] at hl
    obtain ⟨flow, hmem, rfl⟩ := List.mem_map.mp hl
    obtain ⟨h1, h2, h3, h4⟩ := hflow flow hmem
    simp only [flowLine]
    exact ⟨h1, by positivity, by positivity, by positivity⟩
  · intro n a b c d hrep
    obtain ⟨_, h2, h3, h4, h5, _⟩ :=
      flowLoop_eq findFlow clientAddresses serverAddress simTime stats
    have ht := sum_map_nonneg (legitimateEntries findFlow clientAddresses serverAddress stats)
      (fun flow => throughput flow.2 simTime) (fun x hx => (hflow x hx).1)
    have hdl := sum_map_nonneg (legitimateEntries findFlow clientAddresses serverAddress stats)
      (fun flow => avgDelay flow.2) (fun x hx => (hflow x hx).2.1)
    have hjt := sum_map_nonneg (legitimateEntries findFlow clientAddresses serverAddress stats)
      (fun flow => avgJitter flow.2) (fun x hx => (hflow x hx).2.2.1)
    have hls := sum_map_nonneg (legitimateEntries findFlow clientAddresses serverAddress stats)
      (fun flow => packetLoss flow.2) (fun x hx => (hflow x hx).2.2.2)
    rw [← h2] at ht
    rw [← h4] at hdl
    rw [← h5] at hjt
    rw [← h3] at hls
    by_cases hne : stats = []
    · subst hne
      rw [qosAnalysis_nil] at hrep
      exact Report.noConfusion hrep
    · by_cases hpos :
          0 < (flowLoop findFlow clientAddresses serverAddress simTime stats).legitimateFlows
      · rw [qosAnalysis_of_count_pos _ _ _ _ _ hne hpos] at hrep
        simp only [Report.aggregate.injEq] at hrep
        obtain ⟨_, ha, hb, hc, hd⟩ := hrep
        subst ha hb hc hd
        exact ⟨by positivity, by positivity, by positivity, by positivity⟩
      · rw [qosAnalysis_of_count_zero _ _ _ _ _ hne (by omega)] at hrep
        exact Report.noConfusion hrep

/-- Witness for C8 on a map with two legitimate flows and the default `simTime`. -/
theorem metrics_nonneg_witness :
    (∀ l ∈ (qosAnalysis sampleFindFlow [1, 2] 100 60
        [(1, idleStats), (2, busyStats), (3, busyStats)]).lines,
      0 ≤ l.throughputMbps ∧ 0 ≤ l.avgDelayMs ∧ 0 ≤ l.avgJitterMs ∧ 0 ≤ l.packetLossPct) ∧
    (∀ n a b c d, (qosAnalysis sampleFindFlow [1, 2] 100 60
        [(1, idleStats), (2, busyStats), (3, busyStats)]).report =
        Report.aggregate n a b c d → 0 ≤ a ∧ 0 ≤ b ∧ 0 ≤ c ∧ 0 ≤ d) :=
  (metrics_nonneg sampleFindFlow [1, 2] 100 60 [(1, idleStats), (2, busyStats), (3, busyStats)]
    (by norm_num) (by norm_num)
    (by
      intro flow hmem _
      simp only [List.mem_cons, List.mem_singleton, List.not_mem_nil, or_false] at hmem
      rcases hmem with h | h | h <;> subst h <;> decide)).2

/-- C10, as the program behaves: when the flow map holds flows but none is legitimate,
the program prints the no-legitimate-flows message and returns status `0`; when the flow
map is empty it prints the no-flows error message and returns status `1`. In both cases
no per-flow line and no average is printed. -/
theorem empty_data_outcome (findFlow : FlowId → FiveTuple)
    (clientAddresses : List Ipv4Address) (serverAddress : Ipv4Address) (simTime : ℚ)
    (stats : List (FlowId × FlowStats)) :
    (stats ≠ [] →
      (∀ flow ∈ stats, isLegitimate (findFlow flow.1) clientAddresses serverAddress = false) →
      qosAnalysis findFlow clientAddresses serverAddress simTime stats =
        { lines := [], report := Report.noLegitimateFlows, exitCode := 0 }) ∧
    qosAnalysis findFlow clientAddresses serverAddress simTime [] =
      { lines := [], report := Report.noFlowsDetected, exitCode := 1 } := by
  refine ⟨?_, qosAnalysis_nil _ _ _ _⟩
  intro hne hall
  apply qosAnalysis_of_no_legitimate _ _ _ _ _ hne
  rintro ⟨flow, hmem, hl⟩
  rw [hall flow hmem] at hl
  exact Bool.noConfusion hl

/-- Witness for C10 on a map that holds a single attack flow. -/
theorem empty_data_outcome_witness :
    qosAnalysis sampleFindFlow [1, 2] 100 60 [(3, busyStats)] =
      { lines := [], report := Report.noLegitimateFlows, exitCode := 0 } :=
  (empty_data_outcome sampleFindFlow [1, 2] 100 60 [(3, busyStats)]).1
    (by simp) (by simp [sampleFindFlow, isLegitimate])

/-- C10 as stated fails: on an empty flow map the program returns status `1`, not `0`. -/
theorem empty_map_exit_status_one :
    (qosAnalysis sampleFindFlow [1, 2] 100 60 []).exitCode = 1 ∧
    (qosAnalysis sampleFindFlow [1, 2] 100 60 []).exitCode ≠ 0 ∧
    (qosAnalysis sampleFindFlow [1, 2] 100 60 []).report = Report.noFlowsDetected := by
  rw [qosAnalysis_nil]
  exact ⟨rfl, by decide, rfl⟩

end GameDdosSim
